import Mathlib

/-!
Shallow embedding of the APDS-9306 ambient-light-sensor driver
(`src/lib.rs`, `src/register.rs`, `src/types.rs`) and proofs about it.

The I2C bus is modelled as a response function over the transaction
history together with the recorded history; the driver's `&mut self`
methods become explicit state-passing functions in a small state monad.
Machine integers (`u8`, `u32`) are modelled as `Nat`; bytes read from
the bus are reduced `% 256` since the transport delivers `u8` values,
and every place where the Rust code masks or shifts is translated with
the same mask or shift.
-/

set_option linter.unusedVariables false

/-! ## Configuration types (`src/types.rs`) -/

/-- Resolution/bit width settings (`types.rs`, `Resolution`). -/
inductive Resolution where
  | Bits20
  | Bits19
  | Bits18
  | Bits17
  | Bits16
  | Bits13
deriving DecidableEq, Repr

/-- Wire-level code of a resolution (`#[repr(u8)]` discriminants). -/
def Resolution.code : Resolution → Nat
  | .Bits20 => 0b000
  | .Bits19 => 0b001
  | .Bits18 => 0b010
  | .Bits17 => 0b011
  | .Bits16 => 0b100
  | .Bits13 => 0b101

/-- Default resolution (`Resolution::default`, 18 bits). -/
def Resolution.default : Resolution := .Bits18

/-- Measurement rate settings (`types.rs`, `MeasurementRate`). -/
inductive MeasurementRate where
  | Ms25
  | Ms50
  | Ms100
  | Ms200
  | Ms500
  | Ms1000
  | Ms2000
deriving DecidableEq, Repr

/-- Wire-level code of a measurement rate. -/
def MeasurementRate.code : MeasurementRate → Nat
  | .Ms25 => 0b000
  | .Ms50 => 0b001
  | .Ms100 => 0b010
  | .Ms200 => 0b011
  | .Ms500 => 0b100
  | .Ms1000 => 0b101
  | .Ms2000 => 0b110

/-- Default measurement rate (`MeasurementRate::default`, 100 ms). -/
def MeasurementRate.default : MeasurementRate := .Ms100

/-- Gain settings (`types.rs`, `Gain`). -/
inductive Gain where
  | Gain1
  | Gain3
  | Gain6
  | Gain9
  | Gain18
deriving DecidableEq, Repr

/-- Wire-level code of a gain setting. -/
def Gain.code : Gain → Nat
  | .Gain1 => 0b000
  | .Gain3 => 0b001
  | .Gain6 => 0b010
  | .Gain9 => 0b011
  | .Gain18 => 0b100

/-- Default gain (`Gain::default`, gain 3). -/
def Gain.default : Gain := .Gain3

/-- Interrupt source selection (`types.rs`, `InterruptSource`). -/
inductive InterruptSource where
  | ClearChannel
  | AlsChannel
deriving DecidableEq, Repr

/-- Wire-level code of an interrupt source. -/
def InterruptSource.code : InterruptSource → Nat
  | .ClearChannel => 0b00
  | .AlsChannel => 0b01

/-- Default interrupt source (`InterruptSource::default`, ALS channel). -/
def InterruptSource.default : InterruptSource := .AlsChannel

/-- Interrupt mode (`types.rs`, `InterruptMode`). -/
inductive InterruptMode where
  | Threshold
  | Variation
deriving DecidableEq, Repr

/-- Wire-level code of an interrupt mode. -/
def InterruptMode.code : InterruptMode → Nat
  | .Threshold => 0
  | .Variation => 1

/-- Default interrupt mode (`InterruptMode::default`, threshold mode). -/
def InterruptMode.default : InterruptMode := .Threshold

/-- Variance threshold settings (`types.rs`, `VarianceThreshold`). -/
inductive VarianceThreshold where
  | Counts8
  | Counts16
  | Counts32
  | Counts64
  | Counts128
  | Counts256
  | Counts512
  | Counts1024
deriving DecidableEq, Repr

/-- Wire-level code of a variance threshold. -/
def VarianceThreshold.code : VarianceThreshold → Nat
  | .Counts8 => 0b000
  | .Counts16 => 0b001
  | .Counts32 => 0b010
  | .Counts64 => 0b011
  | .Counts128 => 0b100
  | .Counts256 => 0b101
  | .Counts512 => 0b110
  | .Counts1024 => 0b111

/-- Default variance threshold (`VarianceThreshold::default`, 8 counts). -/
def VarianceThreshold.default : VarianceThreshold := .Counts8

/-- Configuration for measurement (`types.rs`, `Config`). -/
structure Config where
  resolution : Resolution
  measurement_rate : MeasurementRate
  gain : Gain
deriving DecidableEq, Repr

/-- Default sensing configuration (`Config::default`). -/
def Config.default : Config :=
  { resolution := Resolution.default,
    measurement_rate := MeasurementRate.default,
    gain := Gain.default }

/-- Configuration for interrupts (`types.rs`, `InterruptConfig`).
`persistence` is a `u8` and the thresholds are `u32` in the source;
both are modelled as `Nat`, with the source's clamping/masking kept. -/
structure InterruptConfig where
  source : InterruptSource
  mode : InterruptMode
  enabled : Bool
  persistence : Nat
  upper_threshold : Nat
  lower_threshold : Nat
  variance_threshold : VarianceThreshold
deriving DecidableEq, Repr

/-- Default interrupt configuration (`InterruptConfig::default`). -/
def InterruptConfig.default : InterruptConfig :=
  { source := InterruptSource.default,
    mode := InterruptMode.default,
    enabled := false,
    persistence := 0,
    upper_threshold := 0x0FFFFF,
    lower_threshold := 0,
    variance_threshold := VarianceThreshold.default }

/-- Status information (`types.rs`, `Status`). -/
structure Status where
  power_on : Bool
  interrupt : Bool
  data_ready : Bool
deriving DecidableEq, Repr

/-- Measurement data (`types.rs`, `MeasurementData`). -/
structure MeasurementData where
  als : Nat
  clear : Nat
deriving DecidableEq, Repr

/-! ## Register map (`src/register.rs`) -/

/-- Register addresses for the APDS-9306 (`register.rs`, `Register`). -/
inductive Register where
  | MainCtrl
  | MeasRate
  | Gain
  | PartId
  | MainStatus
  | ClearData0
  | ClearData1
  | ClearData2
  | Data0
  | Data1
  | Data2
  | IntCfg
  | IntPersistence
  | ThresUp0
  | ThresUp1
  | ThresUp2
  | ThresLow0
  | ThresLow1
  | ThresLow2
  | ThresVar
deriving DecidableEq, Repr

/-- One-byte address of each register (`#[repr(u8)]` discriminants). -/
def Register.addr : Register → Nat
  | .MainCtrl => 0x00
  | .MeasRate => 0x04
  | .Gain => 0x05
  | .PartId => 0x06
  | .MainStatus => 0x07
  | .ClearData0 => 0x0A
  | .ClearData1 => 0x0B
  | .ClearData2 => 0x0C
  | .Data0 => 0x0D
  | .Data1 => 0x0E
  | .Data2 => 0x0F
  | .IntCfg => 0x19
  | .IntPersistence => 0x1A
  | .ThresUp0 => 0x21
  | .ThresUp1 => 0x22
  | .ThresUp2 => 0x23
  | .ThresLow0 => 0x24
  | .ThresLow1 => 0x25
  | .ThresLow2 => 0x26
  | .ThresVar => 0x27

namespace main_ctrl

/-- Software reset bit of MAIN_CTRL (`register.rs`). -/
def SW_RESET : Nat := 1 <<< 4

/-- Enable bit of MAIN_CTRL (`register.rs`). -/
def EN : Nat := 1 <<< 1

end main_ctrl

namespace main_status

/-- Power-on status bit of MAIN_STATUS (`register.rs`). -/
def POWER_ON_STATUS : Nat := 1 <<< 5

/-- Interrupt status bit of MAIN_STATUS (`register.rs`). -/
def INT_STATUS : Nat := 1 <<< 4

/-- Data status bit of MAIN_STATUS (`register.rs`). -/
def DATA_STATUS : Nat := 1 <<< 3

end main_status

namespace int_cfg

/-- Interrupt source selection shift in INT_CFG (`register.rs`). -/
def INT_SEL_SHIFT : Nat := 4

end int_cfg

namespace int_persistence

/-- Persistence shift in INT_PERSISTENCE (`register.rs`). -/
def PERSIST_SHIFT : Nat := 4

end int_persistence

/-! ## Driver-level constants and error type (`src/lib.rs`) -/

/-- Device variant requested at construction (`lib.rs`, `Apds9306Type`). -/
inductive Apds9306Type where
  | Apds9306
  | Apds9306_065
deriving DecidableEq, Repr

/-- I2C address for APDS-9306 (`lib.rs`, `I2C_ADDR`). -/
def I2C_ADDR : Nat := 0x52

/-- Error type for the APDS-9306 driver (`lib.rs`, `Error<E>`). -/
inductive Error (ε : Type) where
  | I2c (e : ε)
  | InvalidConfig
  | DeviceNotFound
  | Timeout
deriving DecidableEq

/-! ## Bus model

The `embedded_hal_async::i2c::I2c` capability offers two fallible
operations: write bytes, and write bytes then read back `n` bytes.
A bus behaviour is a function from the transaction history so far and
the current request to a response, so it covers every possible bus,
including stateful and failing ones. -/

/-- A single I2C request issued by the driver. -/
inductive BusReq where
  | write (addr : Nat) (bytes : List Nat) : BusReq
  | writeRead (addr : Nat) (out : List Nat) (count : Nat) : BusReq
deriving DecidableEq, Repr

/-- The bus's response to a request: bytes read back, or a transport error. -/
inductive BusResp (ε : Type) where
  | ok (bytes : List Nat) : BusResp ε
  | err (e : ε) : BusResp ε
deriving DecidableEq

/-- A bus: a response function over the history, plus the recorded history. -/
structure BusState (ε : Type) where
  behavior : List (BusReq × BusResp ε) → BusReq → BusResp ε
  history : List (BusReq × BusResp ε)

/-- Issue one request and record it in the history. -/
def BusState.step {ε : Type} (s : BusState ε) (req : BusReq) :
    BusResp ε × BusState ε :=
  let resp := s.behavior s.history req
  (resp, { s with history := s.history ++ [(req, resp)] })

/-- `I2c::write`: write bytes to a device address. -/
def i2cWrite {ε : Type} (s : BusState ε) (addr : Nat) (bytes : List Nat) :
    Except ε Unit × BusState ε :=
  match BusState.step s (BusReq.write addr bytes) with
  | (BusResp.ok _, s) => (Except.ok (), s)
  | (BusResp.err e, s) => (Except.error e, s)

/-- `I2c::write_read`: write bytes, then fill a zero-initialised buffer of
`count` bytes from the response.  The transport delivers `u8` values, so
each byte is reduced `% 256`. -/
def i2cWriteRead {ε : Type} (s : BusState ε) (addr : Nat) (out : List Nat)
    (count : Nat) : Except ε (List Nat) × BusState ε :=
  match BusState.step s (BusReq.writeRead addr out count) with
  | (BusResp.ok bytes, s) =>
      (Except.ok ((List.range count).map fun i => bytes.getD i 0 % 256), s)
  | (BusResp.err e, s) => (Except.error e, s)

/-! ## Driver state and monad -/

/-- APDS-9306 driver state (`lib.rs`, `struct Apds9306`). -/
structure Apds9306 (ε : Type) where
  bus : BusState ε
  config : Config
  interrupt_config : InterruptConfig

/-- A driver method: explicit state passing for `&mut self`, with the
source's `Result<_, Error<E>>` return type. -/
abbrev DM (ε : Type) (α : Type) := Apds9306 ε → Except (Error ε) α × Apds9306 ε

instance MonadDM {ε : Type} : Monad (DM ε) where
  pure a := fun d => (Except.ok a, d)
  bind m f := fun d =>
    match m d with
    | (Except.ok a, d) => f a d
    | (Except.error e, d) => (Except.error e, d)

/-- Early return with an error (Rust `return Err(e)`). -/
def DM.fail {ε α : Type} (e : Error ε) : DM ε α := fun d => (Except.error e, d)

/-! ## Private register helpers (`lib.rs`) -/

/-- `read_register`: one-byte register read (`lib.rs` line 303). -/
def Apds9306.read_register {ε : Type} (register : Register) : DM ε Nat :=
  fun d =>
    match i2cWriteRead d.bus I2C_ADDR [register.addr] 1 with
    | (Except.ok buffer, bus) => (Except.ok (buffer.getD 0 0), { d with bus := bus })
    | (Except.error e, bus) => (Except.error (Error.I2c e), { d with bus := bus })

/-- `write_register`: one-byte register write (`lib.rs` line 310). -/
def Apds9306.write_register {ε : Type} (register : Register) (value : Nat) :
    DM ε Unit :=
  fun d =>
    match i2cWrite d.bus I2C_ADDR [register.addr, value] with
    | (Except.ok _, bus) => (Except.ok (), { d with bus := bus })
    | (Except.error e, bus) => (Except.error (Error.I2c e), { d with bus := bus })

/-- `read_registers`: read `n` consecutive registers (`lib.rs` line 316). -/
def Apds9306.read_registers {ε : Type} (start_register : Register) (n : Nat) :
    DM ε (List Nat) :=
  fun d =>
    match i2cWriteRead d.bus I2C_ADDR [start_register.addr] n with
    | (Except.ok buffer, bus) => (Except.ok buffer, { d with bus := bus })
    | (Except.error e, bus) => (Except.error (Error.I2c e), { d with bus := bus })

/-! ## Public operations (`lib.rs`) -/

/-- `verify_device_id` (`lib.rs` line 123). -/
def Apds9306.verify_device_id {ε : Type} (apds9306_type : Apds9306Type) :
    DM ε Unit := do
  let part_id ← Apds9306.read_register Register.PartId
  match apds9306_type with
  | Apds9306Type.Apds9306 =>
      if part_id ≠ 0xB1 then DM.fail Error.DeviceNotFound else pure ()
  | Apds9306Type.Apds9306_065 =>
      if part_id ≠ 0xB3 then DM.fail Error.DeviceNotFound else pure ()

/-- `new`: construct the driver after identity verification
(`lib.rs` line 109). On failure the driver value is dropped. -/
def Apds9306.new {ε : Type} (i2c : BusState ε) (apds9306_type : Apds9306Type) :
    Except (Error ε) (Apds9306 ε) :=
  let driver : Apds9306 ε :=
    { bus := i2c, config := Config.default,
      interrupt_config := InterruptConfig.default }
  match Apds9306.verify_device_id apds9306_type driver with
  | (Except.ok _, d) => Except.ok d
  | (Except.error e, _) => Except.error e

/-- `reset` (`lib.rs` line 144): blind write of the SW_RESET bit. -/
def Apds9306.reset {ε : Type} : DM ε Unit := do
  let value := main_ctrl.SW_RESET
  Apds9306.write_register Register.MainCtrl value

/-- `enable` (`lib.rs` line 156): read-modify-write setting the EN bit. -/
def Apds9306.enable {ε : Type} : DM ε Unit := do
  let current ← Apds9306.read_register Register.MainCtrl
  let value := current ||| main_ctrl.EN
  Apds9306.write_register Register.MainCtrl value

/-- `disable` (`lib.rs` line 168): read-modify-write clearing the EN bit.
Rust's `!EN` is a `u8` complement, i.e. `EN ^^^ 0xFF`. -/
def Apds9306.disable {ε : Type} : DM ε Unit := do
  let current ← Apds9306.read_register Register.MainCtrl
  let value := current &&& (main_ctrl.EN ^^^ 0xFF)
  Apds9306.write_register Register.MainCtrl value

/-- Cache update `self.config = config` inside `configure`. -/
def Apds9306.set_config {ε : Type} (config : Config) : DM ε Unit :=
  fun d => (Except.ok (), { d with config := config })

/-- The MEAS_RATE byte computed by `configure` (`lib.rs` line 185). -/
def meas_rate_value (config : Config) : Nat :=
  (config.resolution.code <<< 4) ||| config.measurement_rate.code

/-- `configure` (`lib.rs` line 180). -/
def Apds9306.configure {ε : Type} (config : Config) : DM ε Unit := do
  Apds9306.set_config config
  Apds9306.write_register Register.MeasRate (meas_rate_value config)
  Apds9306.write_register Register.Gain config.gain.code

/-- Cache update `self.interrupt_config = config` inside `configure_interrupt`. -/
def Apds9306.set_interrupt_config {ε : Type} (config : InterruptConfig) :
    DM ε Unit :=
  fun d => (Except.ok (), { d with interrupt_config := config })

/-- The INT_CFG byte computed by `configure_interrupt` (`lib.rs` line 200). -/
def int_cfg_value (config : InterruptConfig) : Nat :=
  (config.source.code <<< int_cfg.INT_SEL_SHIFT) |||
  (config.mode.code <<< 3) |||
  (config.enabled.toNat <<< 2)

/-- The INT_PERSISTENCE byte computed by `configure_interrupt`
(`lib.rs` lines 206-207): clamp to 15, then shift left by 4. -/
def int_persistence_value (config : InterruptConfig) : Nat :=
  (if config.persistence > 15 then 15 else config.persistence) <<<
    int_persistence.PERSIST_SHIFT

/-- The three threshold bytes written by `configure_interrupt` for one
20-bit threshold (`lib.rs` lines 211-220): mask to 20 bits, then split
into LSB, middle byte, and MSB nibble. -/
def thresholdBytes (t : Nat) : Nat × Nat × Nat :=
  let masked := t &&& 0xFFFFF
  (masked &&& 0xFF, (masked >>> 8) &&& 0xFF, (masked >>> 16) &&& 0x0F)

/-- `configure_interrupt` (`lib.rs` line 195). -/
def Apds9306.configure_interrupt {ε : Type} (config : InterruptConfig) :
    DM ε Unit := do
  Apds9306.set_interrupt_config config
  Apds9306.write_register Register.IntCfg (int_cfg_value config)
  Apds9306.write_register Register.IntPersistence (int_persistence_value config)
  Apds9306.write_register Register.ThresUp0 (thresholdBytes config.upper_threshold).1
  Apds9306.write_register Register.ThresUp1 (thresholdBytes config.upper_threshold).2.1
  Apds9306.write_register Register.ThresUp2 (thresholdBytes config.upper_threshold).2.2
  Apds9306.write_register Register.ThresLow0 (thresholdBytes config.lower_threshold).1
  Apds9306.write_register Register.ThresLow1 (thresholdBytes config.lower_threshold).2.1
  Apds9306.write_register Register.ThresLow2 (thresholdBytes config.lower_threshold).2.2
  Apds9306.write_register Register.ThresVar config.variance_threshold.code

/-- The 20-bit measurement decode used by `read_data` and
`read_clear_data` (`lib.rs` lines 234 and 245). -/
def decode20 (b0 b1 b2 : Nat) : Nat :=
  b0 ||| (b1 <<< 8) ||| ((b2 &&& 0x0F) <<< 16)

/-- `read_data` (`lib.rs` line 229). -/
def Apds9306.read_data {ε : Type} : DM ε Nat := do
  let buffer ← Apds9306.read_registers Register.Data0 3
  let als_data := decode20 (buffer.getD 0 0) (buffer.getD 1 0) (buffer.getD 2 0)
  pure als_data

/-- `read_clear_data` (`lib.rs` line 240). -/
def Apds9306.read_clear_data {ε : Type} : DM ε Nat := do
  let buffer ← Apds9306.read_registers Register.ClearData0 3
  let clear_data := decode20 (buffer.getD 0 0) (buffer.getD 1 0) (buffer.getD 2 0)
  pure clear_data

/-- `read_measurement_data` (`lib.rs` line 251). -/
def Apds9306.read_measurement_data {ε : Type} : DM ε MeasurementData := do
  let als ← Apds9306.read_data
  let clear ← Apds9306.read_clear_data
  pure { als := als, clear := clear }

/-- `read_status` (`lib.rs` line 259). -/
def Apds9306.read_status {ε : Type} : DM ε Nat :=
  Apds9306.read_register Register.MainStatus

/-- `get_status` (`lib.rs` line 264). -/
def Apds9306.get_status {ε : Type} : DM ε Status := do
  let status_reg ← Apds9306.read_status
  pure
    { power_on := status_reg &&& main_status.POWER_ON_STATUS != 0,
      interrupt := status_reg &&& main_status.INT_STATUS != 0,
      data_ready := status_reg &&& main_status.DATA_STATUS != 0 }

/-- `is_power_on_status` (`lib.rs` line 275). -/
def Apds9306.is_power_on_status {ε : Type} : DM ε Bool := do
  let status ← Apds9306.read_status
  pure (status &&& main_status.POWER_ON_STATUS != 0)

/-- `is_interrupt` (`lib.rs` line 281). -/
def Apds9306.is_interrupt {ε : Type} : DM ε Bool := do
  let status ← Apds9306.read_status
  pure (status &&& main_status.INT_STATUS != 0)

/-- `is_data_ready` (`lib.rs` line 287). -/
def Apds9306.is_data_ready {ε : Type} : DM ε Bool := do
  let status ← Apds9306.read_status
  pure (status &&& main_status.DATA_STATUS != 0)

/-- `get_config` (`lib.rs` line 293): infallible cache read. -/
def Apds9306.get_config {ε : Type} (d : Apds9306 ε) : Config := d.config

/-- `get_interrupt_config` (`lib.rs` line 298): infallible cache read. -/
def Apds9306.get_interrupt_config {ε : Type} (d : Apds9306 ε) :
    InterruptConfig := d.interrupt_config

/-- `release` (`lib.rs` line 322): hand the bus back. -/
def Apds9306.release {ε : Type} (d : Apds9306 ε) : BusState ε := d.bus

/-! ## Simulated buses used in the theorems -/

/-- A bus that answers every read with the same byte list and accepts
every write; it never fails. -/
def constBus {ε : Type} (bytes : List Nat) : BusState ε :=
  { behavior := fun _ _ => BusResp.ok bytes, history := [] }

/-- A bus that accepts every request and answers reads with zeroes. -/
def okBus {ε : Type} : BusState ε :=
  { behavior := fun _ _ => BusResp.ok [], history := [] }

/-- Register file resulting from replaying the writes of a history over
initial register contents `init`. -/
def applyWrites {ε : Type} (init : Nat → Nat) :
    List (BusReq × BusResp ε) → Nat → Nat
  | [] => init
  | (BusReq.write a [reg, value], _) :: hist =>
      applyWrites (fun r => if a = I2C_ADDR ∧ r = reg then value else init r) hist
  | _ :: hist => applyWrites init hist

/-- Behaviour of a simulated register-file device: reads return the
current contents of consecutive registers, writes always succeed. -/
def simBehavior {ε : Type} (init : Nat → Nat) :
    List (BusReq × BusResp ε) → BusReq → BusResp ε :=
  fun hist req =>
    match req with
    | BusReq.writeRead a (reg :: _) count =>
        if a = I2C_ADDR then
          BusResp.ok ((List.range count).map fun i => applyWrites init hist (reg + i))
        else BusResp.ok []
    | _ => BusResp.ok []

/-- A simulated register-file bus with initial register contents `init`. -/
def simBus {ε : Type} (init : Nat → Nat) : BusState ε :=
  { behavior := simBehavior init, history := [] }

/-- The (register, value) pairs of the single-register writes recorded in
a history, in order. -/
def writtenBytes {ε : Type} : List (BusReq × BusResp ε) → List (Nat × Nat)
  | [] => []
  | (BusReq.write a [reg, value], _) :: hist =>
      if a = I2C_ADDR then (reg, value) :: writtenBytes hist
      else writtenBytes hist
  | _ :: hist => writtenBytes hist

/-- A concrete driver instance over a trivial error type, used to
instantiate witnesses. -/
def sampleDriver : Apds9306 Unit :=
  { bus := okBus, config := Config.default,
    interrupt_config := InterruptConfig.default }

/-! ## Helper lemmas -/

/-- Unfolding lemma for the driver monad's bind. -/
lemma DM.bind_def {ε α β : Type} (m : DM ε α) (f : α → DM ε β) (d : Apds9306 ε) :
    (m >>= f) d = match m d with
      | (Except.ok a, d2) => f a d2
      | (Except.error e, d2) => (Except.error e, d2) := rfl

/-- Unfolding lemma for the driver monad's pure. -/
lemma DM.pure_def {ε α : Type} (a : α) (d : Apds9306 ε) :
    (pure a : DM ε α) d = (Except.ok a, d) := rfl

/-- Unfolding lemma for early error return. -/
lemma DM.fail_def {ε α : Type} (e : Error ε) (d : Apds9306 ε) :
    (DM.fail e : DM ε α) d = (Except.error e, d) := rfl

/-- A driver method whose result, on every driver state, is either a
success or a wrapped transport error — never any other error kind. -/
def OkShape {ε α : Type} (m : DM ε α) : Prop :=
  ∀ d, (∃ v d2, m d = (Except.ok v, d2)) ∨
       (∃ e d2, m d = (Except.error (Error.I2c e), d2))

lemma okShape_pure {ε α : Type} (a : α) : OkShape (pure a : DM ε α) :=
  fun d => Or.inl ⟨a, d, rfl⟩

lemma okShape_bind {ε α β : Type} {m : DM ε α} {f : α → DM ε β}
    (hm : OkShape m) (hf : ∀ a, OkShape (f a)) : OkShape (m >>= f) := by
  intro d
  rcases hm d with ⟨v, d2, h⟩ | ⟨e, d2, h⟩
  · rcases hf v d2 with ⟨w, d3, h2⟩ | ⟨e, d3, h2⟩
    · exact Or.inl ⟨w, d3, by rw [DM.bind_def, h]; exact h2⟩
    · exact Or.inr ⟨e, d3, by rw [DM.bind_def, h]; exact h2⟩
  · exact Or.inr ⟨e, d2, by rw [DM.bind_def, h]⟩

lemma okShape_read_register {ε : Type} (r : Register) :
    OkShape (Apds9306.read_register (ε := ε) r) := by
  intro d
  cases h : d.bus.behavior d.bus.history (BusReq.writeRead I2C_ADDR [r.addr] 1) with
  | ok bytes =>
      left
      unfold Apds9306.read_register i2cWriteRead BusState.step
      rw [h]
      exact ⟨_, _, rfl⟩
  | err e =>
      right
      unfold Apds9306.read_register i2cWriteRead BusState.step
      rw [h]
      exact ⟨e, _, rfl⟩

lemma okShape_write_register {ε : Type} (r : Register) (v : Nat) :
    OkShape (Apds9306.write_register (ε := ε) r v) := by
  intro d
  cases h : d.bus.behavior d.bus.history (BusReq.write I2C_ADDR [r.addr, v]) with
  | ok bytes =>
      left
      unfold Apds9306.write_register i2cWrite BusState.step
      rw [h]
      exact ⟨_, _, rfl⟩
  | err e =>
      right
      unfold Apds9306.write_register i2cWrite BusState.step
      rw [h]
      exact ⟨e, _, rfl⟩

lemma okShape_read_registers {ε : Type} (r : Register) (n : Nat) :
    OkShape (Apds9306.read_registers (ε := ε) r n) := by
  intro d
  cases h : d.bus.behavior d.bus.history (BusReq.writeRead I2C_ADDR [r.addr] n) with
  | ok bytes =>
      left
      unfold Apds9306.read_registers i2cWriteRead BusState.step
      rw [h]
      exact ⟨_, _, rfl⟩
  | err e =>
      right
      unfold Apds9306.read_registers i2cWriteRead BusState.step
      rw [h]
      exact ⟨e, _, rfl⟩

/-- `verify_device_id` succeeds, propagates a transport error, or fails
with `DeviceNotFound` — nothing else. -/
lemma verify_shape {ε : Type} (ty : Apds9306Type) (d : Apds9306 ε) :
    (∃ d2, Apds9306.verify_device_id ty d = (Except.ok (), d2)) ∨
    (∃ e d2, Apds9306.verify_device_id ty d = (Except.error (Error.I2c e), d2)) ∨
    (∃ d2, Apds9306.verify_device_id ty d =
      (Except.error Error.DeviceNotFound, d2)) := by
  rcases okShape_read_register (ε := ε) Register.PartId d with ⟨v, d2, h⟩ | ⟨e, d2, h⟩
  · unfold Apds9306.verify_device_id
    rw [DM.bind_def, h]
    cases ty
    · by_cases hb : v = 0xB1
      · left; exact ⟨d2, by simp [hb, DM.pure_def]⟩
      · right; right; exact ⟨d2, by simp [hb, DM.fail_def]⟩
    · by_cases hb : v = 0xB3
      · left; exact ⟨d2, by simp [hb, DM.pure_def]⟩
      · right; right; exact ⟨d2, by simp [hb, DM.fail_def]⟩
  · unfold Apds9306.verify_device_id
    rw [DM.bind_def, h]
    right; left; exact ⟨e, d2, rfl⟩

/-- Outcome shape of construction: a driver, a wrapped transport error,
or `DeviceNotFound`. -/
def ConstructShape {ε : Type} (r : Except (Error ε) (Apds9306 ε)) : Prop :=
  (∃ dr, r = Except.ok dr) ∨ (∃ e, r = Except.error (Error.I2c e)) ∨
    r = Except.error Error.DeviceNotFound

/-- Testing one bit with `&&&` agrees with `Nat.testBit`. -/
lemma and_two_pow_bne (s k : Nat) : (s &&& 2 ^ k != 0) = s.testBit k := by
  rw [Nat.and_two_pow]
  cases h : s.testBit k
  · simp
  · simp only [Bool.toNat_true, one_mul, bne_iff_ne, ne_eq]
    have := Nat.pow_pos (show 0 < 2 by norm_num) (n := k)
    omega

/-- Setting the enable bit leaves every other bit unchanged. -/
lemma or_en_testBit (v i : Nat) (h : i ≠ 1) :
    (v ||| main_ctrl.EN).testBit i = v.testBit i := by
  have he : main_ctrl.EN = 2 ^ 1 := rfl
  rw [he]
  simp only [Nat.testBit_or, Nat.testBit_two_pow]
  simp [Ne.symm h]

/-- Setting the enable bit sets bit 1. -/
lemma set_en_bit1 (v : Nat) : (v ||| main_ctrl.EN).testBit 1 = true := by
  have he : main_ctrl.EN = 2 ^ 1 := rfl
  rw [he]
  simp only [Nat.testBit_or, Nat.testBit_two_pow]
  simp

/-- Clearing the enable bit on a byte leaves every other bit unchanged. -/
lemma clear_en_testBit (v i : Nat) (hv : v < 256) (h : i ≠ 1) :
    (v &&& (main_ctrl.EN ^^^ 0xFF)).testBit i = v.testBit i := by
  have he : main_ctrl.EN = 2 ^ 1 := rfl
  have h255 : (0xFF : Nat) = 2 ^ 8 - 1 := by norm_num
  rw [he, h255]
  simp only [Nat.testBit_and, Nat.testBit_xor, Nat.testBit_two_pow,
    Nat.testBit_two_pow_sub_one]
  by_cases hi8 : i < 8
  · simp [Ne.symm h, hi8]
  · have hz : v.testBit i = false := by
      apply Nat.testBit_lt_two_pow
      calc v < 256 := hv
        _ = 2 ^ 8 := rfl
        _ ≤ 2 ^ i := Nat.pow_le_pow_right (by norm_num) (by omega)
    simp [Ne.symm h, hi8, hz]

/-- Clearing the enable bit clears bit 1. -/
lemma clear_en_bit1 (v : Nat) :
    (v &&& (main_ctrl.EN ^^^ 0xFF)).testBit 1 = false := by
  have he : main_ctrl.EN = 2 ^ 1 := rfl
  have h255 : (0xFF : Nat) = 2 ^ 8 - 1 := by norm_num
  rw [he, h255]
  simp only [Nat.testBit_and, Nat.testBit_xor, Nat.testBit_two_pow,
    Nat.testBit_two_pow_sub_one]
  simp

/-- A byte with the enable bit set is still a byte. -/
lemma or_en_lt (v : Nat) (h : v < 256) : v ||| main_ctrl.EN < 256 := by
  have e : (256 : Nat) = 2 ^ 8 := by norm_num
  rw [e] at h ⊢
  exact Nat.or_lt_two_pow h (by decide)

/-- Splitting a 20-bit value into three bytes and reassembling them with
the measurement decode is the identity on the low 20 bits. -/
lemma decode20_thresholdBytes (t : Nat) :
    decode20 (thresholdBytes t).1 (thresholdBytes t).2.1 (thresholdBytes t).2.2 =
      t &&& 0xFFFFF := by
  have h20 : (0xFFFFF : Nat) = 2 ^ 20 - 1 := by norm_num
  have h8 : (0xFF : Nat) = 2 ^ 8 - 1 := by norm_num
  have h4 : (0x0F : Nat) = 2 ^ 4 - 1 := by norm_num
  apply Nat.eq_of_testBit_eq
  intro i
  simp only [decode20, thresholdBytes, h20, h8, h4, Nat.and_pow_two_sub_one_eq_mod,
    Nat.testBit_or, Nat.testBit_shiftLeft, Nat.testBit_shiftRight, Nat.testBit_mod_two_pow]
  by_cases hi8 : i < 8
  · have h1 : ¬ (8 ≤ i) := by omega
    have h2 : ¬ (16 ≤ i) := by omega
    simp [h1, h2, hi8, show i < 20 by omega]
  · by_cases hi16 : i < 16
    · have h1 : 8 ≤ i := by omega
      have h2 : ¬ (16 ≤ i) := by omega
      simp [h1, h2, hi8, hi16, show i - 8 < 8 by omega, show 8 + (i - 8) = i by omega,
        show i < 20 by omega, show ¬ (i < 8) from hi8]
    · by_cases hi20 : i < 20
      · have h1 : 8 ≤ i := by omega
        have h2 : 16 ≤ i := by omega
        simp [h1, h2, show ¬ (i - 8 < 8) by omega, show i - 16 < 4 by omega,
          show 16 + (i - 16) = i by omega, hi20, show ¬ (i < 8) from hi8]
      · have h1 : 8 ≤ i := by omega
        have h2 : 16 ≤ i := by omega
        simp [h1, h2, show ¬ (i - 8 < 8) by omega, show ¬ (i - 16 < 4) by omega,
          show ¬ (i < 20) from hi20, show ¬ (i < 8) from hi8]

/-- A bus whose writes to the GAIN register fail with transport error `e`
while every other request succeeds. -/
def failGainBus {ε : Type} (e : ε) : BusState ε :=
  { behavior := fun _ req =>
      match req with
      | BusReq.write _ (reg :: _) =>
          if reg = Register.Gain.addr then BusResp.err e else BusResp.ok []
      | _ => BusResp.ok [],
    history := [] }


/-- An interrupt configuration that differs from the default only in its
two thresholds, spelled out field by field. -/
def thresholdTestConfig (t u : Nat) : InterruptConfig :=
  { source := InterruptSource.default,
    mode := InterruptMode.default,
    enabled := false,
    persistence := 0,
    upper_threshold := t,
    lower_threshold := u,
    variance_threshold := VarianceThreshold.default }

/-- An interrupt configuration that differs from the default only in its
persistence, spelled out field by field. -/
def persistenceTestConfig (p : Nat) : InterruptConfig :=
  { source := InterruptSource.default,
    mode := InterruptMode.default,
    enabled := false,
    persistence := p,
    upper_threshold := 0x0FFFFF,
    lower_threshold := 0,
    variance_threshold := VarianceThreshold.default }

/-! ## Claim theorems -/

/-- Claim C1: for every three bytes [b0, b1, b2] returned by the bus,
`read_data` and `read_clear_data` decode them to
`b0 ||| (b1 <<< 8) ||| ((b2 &&& 0x0F) <<< 16)`, ignoring the top nibble of
the third byte; in particular [0xFF, 0xFF, 0xFF] decodes to 0xFFFFF,
[0x00, 0x00, 0x10] decodes to 0, and [0x34, 0x12, 0x0A] decodes to 0x0A1234. -/
theorem read_data_decodes_three_bytes (ε : Type) (d : Apds9306 ε) (b0 b1 b2 : Nat)
    (h0 : b0 < 256) (h1 : b1 < 256) (h2 : b2 < 256) :
    (Apds9306.read_data (ε := ε) { d with bus := constBus [b0, b1, b2] }).1 =
      Except.ok (b0 ||| (b1 <<< 8) ||| ((b2 &&& 0x0F) <<< 16)) ∧
    (Apds9306.read_clear_data (ε := ε) { d with bus := constBus [b0, b1, b2] }).1 =
      Except.ok (b0 ||| (b1 <<< 8) ||| ((b2 &&& 0x0F) <<< 16)) ∧
    (Apds9306.read_data (ε := ε) { d with bus := constBus [0xFF, 0xFF, 0xFF] }).1 =
      Except.ok 0xFFFFF ∧
    (Apds9306.read_data (ε := ε) { d with bus := constBus [0x00, 0x00, 0x10] }).1 =
      Except.ok 0x00000 ∧
    (Apds9306.read_data (ε := ε) { d with bus := constBus [0x34, 0x12, 0x0A] }).1 =
      Except.ok 0x0A1234 := by
  have e0 : b0 % 256 = b0 := Nat.mod_eq_of_lt h0
  have e1 : b1 % 256 = b1 := Nat.mod_eq_of_lt h1
  have e2 : b2 % 256 = b2 := Nat.mod_eq_of_lt h2
  refine ⟨?_, ?_, rfl, rfl, rfl⟩
  · have key : (Apds9306.read_data (ε := ε) { d with bus := constBus [b0, b1, b2] }).1 =
        Except.ok (decode20 (b0 % 256) (b1 % 256) (b2 % 256)) := rfl
    rw [key, e0, e1, e2]
    rfl
  · have key : (Apds9306.read_clear_data (ε := ε)
        { d with bus := constBus [b0, b1, b2] }).1 =
        Except.ok (decode20 (b0 % 256) (b1 % 256) (b2 % 256)) := rfl
    rw [key, e0, e1, e2]
    rfl

/-- Witness for C1 at bytes [0x34, 0x12, 0x0A] on a concrete driver. -/
theorem read_data_decodes_three_bytes_witness :
    (Apds9306.read_data (ε := Unit)
        { sampleDriver with bus := constBus [0x34, 0x12, 0x0A] }).1 =
      Except.ok (0x34 ||| (0x12 <<< 8) ||| ((0x0A &&& 0x0F) <<< 16)) ∧
    (Apds9306.read_clear_data (ε := Unit)
        { sampleDriver with bus := constBus [0x34, 0x12, 0x0A] }).1 =
      Except.ok (0x34 ||| (0x12 <<< 8) ||| ((0x0A &&& 0x0F) <<< 16)) ∧
    (Apds9306.read_data (ε := Unit)
        { sampleDriver with bus := constBus [0xFF, 0xFF, 0xFF] }).1 =
      Except.ok 0xFFFFF ∧
    (Apds9306.read_data (ε := Unit)
        { sampleDriver with bus := constBus [0x00, 0x00, 0x10] }).1 =
      Except.ok 0x00000 ∧
    (Apds9306.read_data (ε := Unit)
        { sampleDriver with bus := constBus [0x34, 0x12, 0x0A] }).1 =
      Except.ok 0x0A1234 :=
  read_data_decodes_three_bytes Unit sampleDriver 0x34 0x12 0x0A
    (by norm_num) (by norm_num) (by norm_num)

/-- Claim C2: for 32-bit threshold values, the three threshold bytes
written by `configure_interrupt` (LSB, middle, MSB nibble — computed by
`thresholdBytes`), decoded back with the measurement decode formula
`decode20`, give exactly the threshold masked to 20 bits; this holds for
both the upper and the lower threshold. -/
theorem threshold_encode_decode_roundtrip (ε : Type) (d : Apds9306 ε) (t u : Nat)
    (ht : t < 2 ^ 32) (hu : u < 2 ^ 32) :
    writtenBytes ((Apds9306.configure_interrupt (ε := ε) (thresholdTestConfig t u))
        { d with bus := okBus }).2.bus.history =
      [(Register.IntCfg.addr, int_cfg_value (thresholdTestConfig t u)),
       (Register.IntPersistence.addr, int_persistence_value (thresholdTestConfig t u)),
       (Register.ThresUp0.addr, (thresholdBytes t).1),
       (Register.ThresUp1.addr, (thresholdBytes t).2.1),
       (Register.ThresUp2.addr, (thresholdBytes t).2.2),
       (Register.ThresLow0.addr, (thresholdBytes u).1),
       (Register.ThresLow1.addr, (thresholdBytes u).2.1),
       (Register.ThresLow2.addr, (thresholdBytes u).2.2),
       (Register.ThresVar.addr, VarianceThreshold.default.code)] ∧
    decode20 (thresholdBytes t).1 (thresholdBytes t).2.1 (thresholdBytes t).2.2 =
      t &&& 0xFFFFF ∧
    decode20 (thresholdBytes u).1 (thresholdBytes u).2.1 (thresholdBytes u).2.2 =
      u &&& 0xFFFFF :=
  ⟨rfl, decode20_thresholdBytes t, decode20_thresholdBytes u⟩

/-- Witness for C2 at upper threshold 0x89ABCDEF and lower threshold 0x12345. -/
theorem threshold_encode_decode_roundtrip_witness :
    ((0x89ABCDEF : Nat) < 2 ^ 32 ∧ (0x12345 : Nat) < 2 ^ 32) ∧
    (writtenBytes ((Apds9306.configure_interrupt (ε := Unit)
        (thresholdTestConfig 0x89ABCDEF 0x12345))
        { sampleDriver with bus := okBus }).2.bus.history =
      [(Register.IntCfg.addr, int_cfg_value (thresholdTestConfig 0x89ABCDEF 0x12345)),
       (Register.IntPersistence.addr,
        int_persistence_value (thresholdTestConfig 0x89ABCDEF 0x12345)),
       (Register.ThresUp0.addr, (thresholdBytes 0x89ABCDEF).1),
       (Register.ThresUp1.addr, (thresholdBytes 0x89ABCDEF).2.1),
       (Register.ThresUp2.addr, (thresholdBytes 0x89ABCDEF).2.2),
       (Register.ThresLow0.addr, (thresholdBytes 0x12345).1),
       (Register.ThresLow1.addr, (thresholdBytes 0x12345).2.1),
       (Register.ThresLow2.addr, (thresholdBytes 0x12345).2.2),
       (Register.ThresVar.addr, VarianceThreshold.default.code)] ∧
    decode20 (thresholdBytes 0x89ABCDEF).1 (thresholdBytes 0x89ABCDEF).2.1
        (thresholdBytes 0x89ABCDEF).2.2 = 0x89ABCDEF &&& 0xFFFFF ∧
    decode20 (thresholdBytes 0x12345).1 (thresholdBytes 0x12345).2.1
        (thresholdBytes 0x12345).2.2 = 0x12345 &&& 0xFFFFF) :=
  ⟨⟨by norm_num, by norm_num⟩,
   threshold_encode_decode_roundtrip Unit sampleDriver 0x89ABCDEF 0x12345
     (by norm_num) (by norm_num)⟩

/-- Claim C3 counterexample: `configure_interrupt` with the default
interrupt configuration performs nine single-register writes, not eight
as claimed — the enumerated sequence INT_CFG, INT_PERSISTENCE, three
upper-threshold bytes, three lower-threshold bytes and the variance byte
has nine elements. -/
theorem configure_interrupt_nine_writes_cex :
    (writtenBytes ((Apds9306.configure_interrupt (ε := Unit) InterruptConfig.default)
        sampleDriver).2.bus.history).length = 9 ∧
    (writtenBytes ((Apds9306.configure_interrupt (ε := Unit) InterruptConfig.default)
        sampleDriver).2.bus.history).length ≠ 8 :=
  ⟨rfl, by decide⟩

/-- Claim C3 (amended): `configure_interrupt` performs exactly nine
single-register writes in the fixed order INT_CFG, INT_PERSISTENCE,
upper-threshold LSB/mid/MSB, lower-threshold LSB/mid/MSB, variance
threshold; with the default `InterruptConfig` the bytes written are
INT_CFG = 0b0001_0000, INT_PERSISTENCE = 0x00, upper threshold bytes
[0xFF, 0xFF, 0x0F], lower threshold bytes [0x00, 0x00, 0x00], and
variance byte 0x00. -/
theorem configure_interrupt_writes_nine_registers (ε : Type) (d : Apds9306 ε)
    (cfg : InterruptConfig) :
    Apds9306.configure_interrupt (ε := ε) cfg { d with bus := okBus } =
      (Except.ok (),
       { bus :=
          { behavior := fun _ _ => BusResp.ok [],
            history := [
              (BusReq.write I2C_ADDR [Register.IntCfg.addr, int_cfg_value cfg],
               BusResp.ok []),
              (BusReq.write I2C_ADDR
                 [Register.IntPersistence.addr, int_persistence_value cfg],
               BusResp.ok []),
              (BusReq.write I2C_ADDR
                 [Register.ThresUp0.addr, (thresholdBytes cfg.upper_threshold).1],
               BusResp.ok []),
              (BusReq.write I2C_ADDR
                 [Register.ThresUp1.addr, (thresholdBytes cfg.upper_threshold).2.1],
               BusResp.ok []),
              (BusReq.write I2C_ADDR
                 [Register.ThresUp2.addr, (thresholdBytes cfg.upper_threshold).2.2],
               BusResp.ok []),
              (BusReq.write I2C_ADDR
                 [Register.ThresLow0.addr, (thresholdBytes cfg.lower_threshold).1],
               BusResp.ok []),
              (BusReq.write I2C_ADDR
                 [Register.ThresLow1.addr, (thresholdBytes cfg.lower_threshold).2.1],
               BusResp.ok []),
              (BusReq.write I2C_ADDR
                 [Register.ThresLow2.addr, (thresholdBytes cfg.lower_threshold).2.2],
               BusResp.ok []),
              (BusReq.write I2C_ADDR
                 [Register.ThresVar.addr, cfg.variance_threshold.code],
               BusResp.ok [])] },
         config := d.config, interrupt_config := cfg }) ∧
    Apds9306.configure_interrupt (ε := ε) InterruptConfig.default
        { d with bus := okBus } =
      (Except.ok (),
       { bus :=
          { behavior := fun _ _ => BusResp.ok [],
            history := [
              (BusReq.write I2C_ADDR [0x19, 0b00010000], BusResp.ok []),
              (BusReq.write I2C_ADDR [0x1A, 0x00], BusResp.ok []),
              (BusReq.write I2C_ADDR [0x21, 0xFF], BusResp.ok []),
              (BusReq.write I2C_ADDR [0x22, 0xFF], BusResp.ok []),
              (BusReq.write I2C_ADDR [0x23, 0x0F], BusResp.ok []),
              (BusReq.write I2C_ADDR [0x24, 0x00], BusResp.ok []),
              (BusReq.write I2C_ADDR [0x25, 0x00], BusResp.ok []),
              (BusReq.write I2C_ADDR [0x26, 0x00], BusResp.ok []),
              (BusReq.write I2C_ADDR [0x27, 0x00], BusResp.ok [])] },
         config := d.config, interrupt_config := InterruptConfig.default }) :=
  ⟨rfl, rfl⟩

/-- Claim C4 counterexample: the INT_PERSISTENCE byte produced by
`configure_interrupt` for persistence = 16 equals the byte for
persistence = 15 (both are 0xF0, since 16 is clamped to 15), refuting
the claim that the two bytes differ. -/
theorem persistence_16_byte_equals_15_cex :
    writtenBytes ((Apds9306.configure_interrupt (ε := Unit)
        (persistenceTestConfig 16)) sampleDriver).2.bus.history =
      writtenBytes ((Apds9306.configure_interrupt (ε := Unit)
        (persistenceTestConfig 15)) sampleDriver).2.bus.history ∧
    int_persistence_value (persistenceTestConfig 16) = 0xF0 ∧
    int_persistence_value (persistenceTestConfig 15) = 0xF0 :=
  ⟨rfl, rfl, rfl⟩

/-- Claim C4 (amended): the INT_PERSISTENCE byte produced by
`configure_interrupt` for persistence = 20 equals the byte produced for
persistence = 15, and the byte produced for persistence = 16 also equals
the byte produced for persistence = 15 — every value above 15 is clamped
to 15 before the shift, so the encodings of 15 and 16 coincide (both 0xF0). -/
theorem persistence_clamp_bytes :
    writtenBytes ((Apds9306.configure_interrupt (ε := Unit)
        (persistenceTestConfig 20)) sampleDriver).2.bus.history =
      writtenBytes ((Apds9306.configure_interrupt (ε := Unit)
        (persistenceTestConfig 15)) sampleDriver).2.bus.history ∧
    writtenBytes ((Apds9306.configure_interrupt (ε := Unit)
        (persistenceTestConfig 16)) sampleDriver).2.bus.history =
      writtenBytes ((Apds9306.configure_interrupt (ε := Unit)
        (persistenceTestConfig 15)) sampleDriver).2.bus.history ∧
    int_persistence_value (persistenceTestConfig 20) =
      int_persistence_value (persistenceTestConfig 15) ∧
    int_persistence_value (persistenceTestConfig 16) =
      int_persistence_value (persistenceTestConfig 15) ∧
    int_persistence_value (persistenceTestConfig 15) = 0xF0 :=
  ⟨rfl, rfl, rfl, rfl, rfl⟩

/-- Claim C5: construction reads the part-identity register and succeeds
iff the returned byte equals 0xB1 for the base variant, or 0xB3 for the
alternate variant; on any other byte it fails with `DeviceNotFound` and
no driver value is produced. -/
theorem new_verifies_device_id (ε : Type) (b : Nat) (hb : b < 256) :
    ((∃ dr, Apds9306.new (constBus (ε := ε) [b]) Apds9306Type.Apds9306 =
        Except.ok dr) ↔ b = 0xB1) ∧
    (b ≠ 0xB1 → Apds9306.new (constBus (ε := ε) [b]) Apds9306Type.Apds9306 =
        Except.error Error.DeviceNotFound) ∧
    ((∃ dr, Apds9306.new (constBus (ε := ε) [b]) Apds9306Type.Apds9306_065 =
        Except.ok dr) ↔ b = 0xB3) ∧
    (b ≠ 0xB3 → Apds9306.new (constBus (ε := ε) [b]) Apds9306Type.Apds9306_065 =
        Except.error Error.DeviceNotFound) := by
  have hv : b % 256 = b := Nat.mod_eq_of_lt hb
  refine ⟨⟨?_, ?_⟩, ?_, ⟨?_, ?_⟩, ?_⟩
  · rintro ⟨dr, hdr⟩
    by_contra hne
    simp [Apds9306.new, Apds9306.verify_device_id, DM.bind_def,
      Apds9306.read_register, i2cWriteRead, BusState.step, constBus, DM.fail,
      hv, hne] at hdr
  · intro hb1
    subst hb1
    exact ⟨_, rfl⟩
  · intro hne
    simp [Apds9306.new, Apds9306.verify_device_id, DM.bind_def,
      Apds9306.read_register, i2cWriteRead, BusState.step, constBus, DM.fail,
      hv, hne]
  · rintro ⟨dr, hdr⟩
    by_contra hne
    simp [Apds9306.new, Apds9306.verify_device_id, DM.bind_def,
      Apds9306.read_register, i2cWriteRead, BusState.step, constBus, DM.fail,
      hv, hne] at hdr
  · intro hb3
    subst hb3
    exact ⟨_, rfl⟩
  · intro hne
    simp [Apds9306.new, Apds9306.verify_device_id, DM.bind_def,
      Apds9306.read_register, i2cWriteRead, BusState.step, constBus, DM.fail,
      hv, hne]

/-- Witness for C5 at identity byte 0xB1. -/
theorem new_verifies_device_id_witness :
    ((∃ dr, Apds9306.new (constBus (ε := Unit) [0xB1]) Apds9306Type.Apds9306 =
        Except.ok dr) ↔ (0xB1 : Nat) = 0xB1) ∧
    ((0xB1 : Nat) ≠ 0xB1 →
      Apds9306.new (constBus (ε := Unit) [0xB1]) Apds9306Type.Apds9306 =
        Except.error Error.DeviceNotFound) ∧
    ((∃ dr, Apds9306.new (constBus (ε := Unit) [0xB1]) Apds9306Type.Apds9306_065 =
        Except.ok dr) ↔ (0xB1 : Nat) = 0xB3) ∧
    ((0xB1 : Nat) ≠ 0xB3 →
      Apds9306.new (constBus (ε := Unit) [0xB1]) Apds9306Type.Apds9306_065 =
        Except.error Error.DeviceNotFound) :=
  new_verifies_device_id Unit 0xB1 (by norm_num)

/-- A concrete initial register file used to instantiate witnesses. -/
def sampleRegs : Nat → Nat := fun _ => 0xAD

/-- Claim C6: with a simulated register-file bus whose MAIN_CTRL byte is
`init 0`, `enable` performs a read-modify-write that writes exactly that
byte with only the enable bit set, `disable` writes exactly that byte
with only the enable bit cleared, each preserving every other bit as
read; consequently `enable` followed by `disable` writes back the
pre-enable MAIN_CTRL value bit-for-bit except the enable bit. -/
theorem enable_disable_preserve_bits (ε : Type) (d : Apds9306 ε)
    (init : Nat → Nat) (i : Nat) (h : init 0 < 256) (hi : i ≠ 1) :
    (Apds9306.enable (ε := ε) { d with bus := simBus init }).1 = Except.ok () ∧
    writtenBytes (Apds9306.enable (ε := ε)
        { d with bus := simBus init }).2.bus.history =
      [(Register.MainCtrl.addr, init 0 ||| main_ctrl.EN)] ∧
    (init 0 ||| main_ctrl.EN).testBit i = (init 0).testBit i ∧
    (init 0 ||| main_ctrl.EN).testBit 1 = true ∧
    (Apds9306.disable (ε := ε) { d with bus := simBus init }).1 = Except.ok () ∧
    writtenBytes (Apds9306.disable (ε := ε)
        { d with bus := simBus init }).2.bus.history =
      [(Register.MainCtrl.addr, init 0 &&& (main_ctrl.EN ^^^ 0xFF))] ∧
    (init 0 &&& (main_ctrl.EN ^^^ 0xFF)).testBit i = (init 0).testBit i ∧
    (init 0 &&& (main_ctrl.EN ^^^ 0xFF)).testBit 1 = false ∧
    (Apds9306.disable (ε := ε)
        (Apds9306.enable (ε := ε) { d with bus := simBus init }).2).1 =
      Except.ok () ∧
    writtenBytes (Apds9306.disable (ε := ε)
        (Apds9306.enable (ε := ε) { d with bus := simBus init }).2).2.bus.history =
      [(Register.MainCtrl.addr, init 0 ||| main_ctrl.EN),
       (Register.MainCtrl.addr,
        (init 0 ||| main_ctrl.EN) &&& (main_ctrl.EN ^^^ 0xFF))] ∧
    ((init 0 ||| main_ctrl.EN) &&& (main_ctrl.EN ^^^ 0xFF)).testBit i =
      (init 0).testBit i ∧
    ((init 0 ||| main_ctrl.EN) &&& (main_ctrl.EN ^^^ 0xFF)).testBit 1 = false := by
  have hv : init 0 % 256 = init 0 := Nat.mod_eq_of_lt h
  have h256 : init 0 ||| main_ctrl.EN < 256 := or_en_lt (init 0) h
  have hv2 : (init 0 ||| main_ctrl.EN) % 256 = init 0 ||| main_ctrl.EN :=
    Nat.mod_eq_of_lt h256
  refine ⟨rfl, ?_, or_en_testBit (init 0) i hi, set_en_bit1 (init 0), rfl, ?_,
    clear_en_testBit (init 0) i h hi, clear_en_bit1 (init 0), rfl, ?_,
    (clear_en_testBit (init 0 ||| main_ctrl.EN) i h256 hi).trans
      (or_en_testBit (init 0) i hi),
    clear_en_bit1 (init 0 ||| main_ctrl.EN)⟩
  · have key : writtenBytes (Apds9306.enable (ε := ε)
        { d with bus := simBus init }).2.bus.history =
        [(Register.MainCtrl.addr, (init 0 % 256) ||| main_ctrl.EN)] := rfl
    rw [key, hv]
  · have key : writtenBytes (Apds9306.disable (ε := ε)
        { d with bus := simBus init }).2.bus.history =
        [(Register.MainCtrl.addr, (init 0 % 256) &&& (main_ctrl.EN ^^^ 0xFF))] := rfl
    rw [key, hv]
  · have key : writtenBytes (Apds9306.disable (ε := ε)
        (Apds9306.enable (ε := ε) { d with bus := simBus init }).2).2.bus.history =
        [(Register.MainCtrl.addr, (init 0 % 256) ||| main_ctrl.EN),
         (Register.MainCtrl.addr,
          (((init 0 % 256) ||| main_ctrl.EN) % 256) &&& (main_ctrl.EN ^^^ 0xFF))] := rfl
    rw [key, hv, hv2]

/-- Witness for C6 with every register initially 0xAD, at bit 0. -/
theorem enable_disable_preserve_bits_witness :
    (Apds9306.enable (ε := Unit) { sampleDriver with bus := simBus sampleRegs }).1 =
      Except.ok () ∧
    writtenBytes (Apds9306.enable (ε := Unit)
        { sampleDriver with bus := simBus sampleRegs }).2.bus.history =
      [(Register.MainCtrl.addr, 0xAD ||| main_ctrl.EN)] ∧
    ((0xAD : Nat) ||| main_ctrl.EN).testBit 0 = (0xAD : Nat).testBit 0 ∧
    ((0xAD : Nat) ||| main_ctrl.EN).testBit 1 = true ∧
    (Apds9306.disable (ε := Unit) { sampleDriver with bus := simBus sampleRegs }).1 =
      Except.ok () ∧
    writtenBytes (Apds9306.disable (ε := Unit)
        { sampleDriver with bus := simBus sampleRegs }).2.bus.history =
      [(Register.MainCtrl.addr, 0xAD &&& (main_ctrl.EN ^^^ 0xFF))] ∧
    ((0xAD : Nat) &&& (main_ctrl.EN ^^^ 0xFF)).testBit 0 = (0xAD : Nat).testBit 0 ∧
    ((0xAD : Nat) &&& (main_ctrl.EN ^^^ 0xFF)).testBit 1 = false ∧
    (Apds9306.disable (ε := Unit)
        (Apds9306.enable (ε := Unit)
          { sampleDriver with bus := simBus sampleRegs }).2).1 = Except.ok () ∧
    writtenBytes (Apds9306.disable (ε := Unit)
        (Apds9306.enable (ε := Unit)
          { sampleDriver with bus := simBus sampleRegs }).2).2.bus.history =
      [(Register.MainCtrl.addr, 0xAD ||| main_ctrl.EN),
       (Register.MainCtrl.addr,
        ((0xAD : Nat) ||| main_ctrl.EN) &&& (main_ctrl.EN ^^^ 0xFF))] ∧
    (((0xAD : Nat) ||| main_ctrl.EN) &&& (main_ctrl.EN ^^^ 0xFF)).testBit 0 =
      (0xAD : Nat).testBit 0 ∧
    (((0xAD : Nat) ||| main_ctrl.EN) &&& (main_ctrl.EN ^^^ 0xFF)).testBit 1 =
      false :=
  enable_disable_preserve_bits Unit sampleDriver sampleRegs 0
    (by decide) (by decide)

/-- Claim C7: `configure` stores the configuration in the driver's cache
and performs exactly two register writes in order — MEAS_RATE with byte
`(resolution_code <<< 4) ||| rate_code`, then GAIN with byte `gain_code`;
if the first write succeeds and the second fails, the call returns the
transport error while the cached configuration (as returned by
`get_config`) already holds the new value — no rollback. -/
theorem configure_two_writes_no_rollback (ε : Type) (d : Apds9306 ε)
    (cfg : Config) (e : ε) :
    Apds9306.configure (ε := ε) cfg { d with bus := okBus } =
      (Except.ok (),
       { bus :=
          { behavior := fun _ _ => BusResp.ok [],
            history := [
              (BusReq.write I2C_ADDR [Register.MeasRate.addr, meas_rate_value cfg],
               BusResp.ok []),
              (BusReq.write I2C_ADDR [Register.Gain.addr, cfg.gain.code],
               BusResp.ok [])] },
         config := cfg, interrupt_config := d.interrupt_config }) ∧
    (Apds9306.configure (ε := ε) cfg { d with bus := failGainBus e }).1 =
      Except.error (Error.I2c e) ∧
    Apds9306.get_config
        (Apds9306.configure (ε := ε) cfg { d with bus := failGainBus e }).2 =
      cfg ∧
    (Apds9306.configure (ε := ε) cfg
        { d with bus := failGainBus e }).2.bus.history =
      [(BusReq.write I2C_ADDR [Register.MeasRate.addr, meas_rate_value cfg],
        BusResp.ok []),
       (BusReq.write I2C_ADDR [Register.Gain.addr, cfg.gain.code],
        BusResp.err e)] :=
  ⟨rfl, rfl, rfl, rfl⟩

/-! ## Error-shape lemmas for every public operation -/

lemma constructShape_new {ε : Type} (b : BusState ε) (ty : Apds9306Type) :
    ConstructShape (Apds9306.new b ty) := by
  unfold Apds9306.new
  dsimp only
  rcases verify_shape ty
      { bus := b, config := Config.default,
        interrupt_config := InterruptConfig.default } with
    ⟨d2, h⟩ | ⟨e, d2, h⟩ | ⟨d2, h⟩
  · left; exact ⟨d2, by rw [h]⟩
  · right; left; exact ⟨e, by rw [h]⟩
  · right; right; rw [h]

lemma okShape_reset {ε : Type} : OkShape (Apds9306.reset (ε := ε)) := by
  unfold Apds9306.reset
  exact okShape_write_register _ _

lemma okShape_enable {ε : Type} : OkShape (Apds9306.enable (ε := ε)) := by
  unfold Apds9306.enable
  exact okShape_bind (okShape_read_register _) fun a => okShape_write_register _ _

lemma okShape_disable {ε : Type} : OkShape (Apds9306.disable (ε := ε)) := by
  unfold Apds9306.disable
  exact okShape_bind (okShape_read_register _) fun a => okShape_write_register _ _

lemma okShape_configure {ε : Type} (cfg : Config) :
    OkShape (Apds9306.configure (ε := ε) cfg) := by
  unfold Apds9306.configure
  refine okShape_bind (fun d => Or.inl ⟨_, _, rfl⟩) fun a => ?_
  exact okShape_bind (okShape_write_register _ _) fun a => okShape_write_register _ _

lemma okShape_configure_interrupt {ε : Type} (cfg : InterruptConfig) :
    OkShape (Apds9306.configure_interrupt (ε := ε) cfg) := by
  unfold Apds9306.configure_interrupt
  refine okShape_bind (fun d => Or.inl ⟨_, _, rfl⟩) fun a => ?_
  refine okShape_bind (okShape_write_register _ _) fun a => ?_
  refine okShape_bind (okShape_write_register _ _) fun a => ?_
  refine okShape_bind (okShape_write_register _ _) fun a => ?_
  refine okShape_bind (okShape_write_register _ _) fun a => ?_
  refine okShape_bind (okShape_write_register _ _) fun a => ?_
  refine okShape_bind (okShape_write_register _ _) fun a => ?_
  refine okShape_bind (okShape_write_register _ _) fun a => ?_
  refine okShape_bind (okShape_write_register _ _) fun a => ?_
  exact okShape_write_register _ _

lemma okShape_read_data {ε : Type} : OkShape (Apds9306.read_data (ε := ε)) := by
  unfold Apds9306.read_data
  exact okShape_bind (okShape_read_registers _ _) fun a => okShape_pure _

lemma okShape_read_clear_data {ε : Type} :
    OkShape (Apds9306.read_clear_data (ε := ε)) := by
  unfold Apds9306.read_clear_data
  exact okShape_bind (okShape_read_registers _ _) fun a => okShape_pure _

lemma okShape_read_measurement_data {ε : Type} :
    OkShape (Apds9306.read_measurement_data (ε := ε)) := by
  unfold Apds9306.read_measurement_data
  exact okShape_bind okShape_read_data fun a =>
    okShape_bind okShape_read_clear_data fun a => okShape_pure _

lemma okShape_read_status {ε : Type} : OkShape (Apds9306.read_status (ε := ε)) := by
  unfold Apds9306.read_status
  exact okShape_read_register _

lemma okShape_get_status {ε : Type} : OkShape (Apds9306.get_status (ε := ε)) := by
  unfold Apds9306.get_status
  exact okShape_bind okShape_read_status fun a => okShape_pure _

lemma okShape_is_power_on_status {ε : Type} :
    OkShape (Apds9306.is_power_on_status (ε := ε)) := by
  unfold Apds9306.is_power_on_status
  exact okShape_bind okShape_read_status fun a => okShape_pure _

lemma okShape_is_interrupt {ε : Type} : OkShape (Apds9306.is_interrupt (ε := ε)) := by
  unfold Apds9306.is_interrupt
  exact okShape_bind okShape_read_status fun a => okShape_pure _

lemma okShape_is_data_ready {ε : Type} :
    OkShape (Apds9306.is_data_ready (ε := ε)) := by
  unfold Apds9306.is_data_ready
  exact okShape_bind okShape_read_status fun a => okShape_pure _

/-- Claim C8: no public driver operation ever returns the `Timeout` or
`InvalidConfig` error kind, for any input and any bus behaviour: every
operation's result is a success or a wrapped transport error
(`OkShape`), except construction, which may additionally fail with
`DeviceNotFound` (`ConstructShape`). -/
theorem no_timeout_no_invalid_config (ε : Type) (b : BusState ε)
    (ty : Apds9306Type) (cfg : Config) (icfg : InterruptConfig) :
    ConstructShape (Apds9306.new b ty) ∧
    OkShape (Apds9306.reset (ε := ε)) ∧
    OkShape (Apds9306.enable (ε := ε)) ∧
    OkShape (Apds9306.disable (ε := ε)) ∧
    OkShape (Apds9306.configure (ε := ε) cfg) ∧
    OkShape (Apds9306.configure_interrupt (ε := ε) icfg) ∧
    OkShape (Apds9306.read_data (ε := ε)) ∧
    OkShape (Apds9306.read_clear_data (ε := ε)) ∧
    OkShape (Apds9306.read_measurement_data (ε := ε)) ∧
    OkShape (Apds9306.read_status (ε := ε)) ∧
    OkShape (Apds9306.get_status (ε := ε)) ∧
    OkShape (Apds9306.is_power_on_status (ε := ε)) ∧
    OkShape (Apds9306.is_interrupt (ε := ε)) ∧
    OkShape (Apds9306.is_data_ready (ε := ε)) :=
  ⟨constructShape_new b ty, okShape_reset, okShape_enable, okShape_disable,
   okShape_configure cfg, okShape_configure_interrupt icfg, okShape_read_data,
   okShape_read_clear_data, okShape_read_measurement_data, okShape_read_status,
   okShape_get_status, okShape_is_power_on_status, okShape_is_interrupt,
   okShape_is_data_ready⟩

/-- Claim C9: for every status byte s read from MAIN_STATUS, `get_status`
decodes power_on from bit 5, interrupt from bit 4, and data_ready from
bit 3; and `is_power_on_status`, `is_interrupt`, `is_data_ready` return
exactly the corresponding field of `get_status`'s result. -/
theorem get_status_decodes_bits (ε : Type) (d : Apds9306 ε) (s : Nat)
    (hs : s < 256) :
    (Apds9306.get_status (ε := ε) { d with bus := constBus [s] }).1 =
      Except.ok { power_on := s.testBit 5, interrupt := s.testBit 4,
                  data_ready := s.testBit 3 } ∧
    (Apds9306.is_power_on_status (ε := ε) { d with bus := constBus [s] }).1 =
      Except.ok (s.testBit 5) ∧
    (Apds9306.is_interrupt (ε := ε) { d with bus := constBus [s] }).1 =
      Except.ok (s.testBit 4) ∧
    (Apds9306.is_data_ready (ε := ε) { d with bus := constBus [s] }).1 =
      Except.ok (s.testBit 3) := by
  have hv : s % 256 = s := Nat.mod_eq_of_lt hs
  have h5 : (s &&& main_status.POWER_ON_STATUS != 0) = s.testBit 5 := by
    rw [show main_status.POWER_ON_STATUS = 2 ^ 5 from rfl, and_two_pow_bne]
  have h4 : (s &&& main_status.INT_STATUS != 0) = s.testBit 4 := by
    rw [show main_status.INT_STATUS = 2 ^ 4 from rfl, and_two_pow_bne]
  have h3 : (s &&& main_status.DATA_STATUS != 0) = s.testBit 3 := by
    rw [show main_status.DATA_STATUS = 2 ^ 3 from rfl, and_two_pow_bne]
  refine ⟨?_, ?_, ?_, ?_⟩
  · have key : (Apds9306.get_status (ε := ε) { d with bus := constBus [s] }).1 =
        Except.ok { power_on := (s % 256) &&& main_status.POWER_ON_STATUS != 0,
                    interrupt := (s % 256) &&& main_status.INT_STATUS != 0,
                    data_ready := (s % 256) &&& main_status.DATA_STATUS != 0 } := rfl
    rw [key, hv, h5, h4, h3]
  · have key : (Apds9306.is_power_on_status (ε := ε)
        { d with bus := constBus [s] }).1 =
        Except.ok ((s % 256) &&& main_status.POWER_ON_STATUS != 0) := rfl
    rw [key, hv, h5]
  · have key : (Apds9306.is_interrupt (ε := ε) { d with bus := constBus [s] }).1 =
        Except.ok ((s % 256) &&& main_status.INT_STATUS != 0) := rfl
    rw [key, hv, h4]
  · have key : (Apds9306.is_data_ready (ε := ε) { d with bus := constBus [s] }).1 =
        Except.ok ((s % 256) &&& main_status.DATA_STATUS != 0) := rfl
    rw [key, hv, h3]

/-- Witness for C9 at status byte 0x28 (bits 5 and 3 set). -/
theorem get_status_decodes_bits_witness :
    (Apds9306.get_status (ε := Unit) { sampleDriver with bus := constBus [0x28] }).1 =
      Except.ok { power_on := (0x28 : Nat).testBit 5,
                  interrupt := (0x28 : Nat).testBit 4,
                  data_ready := (0x28 : Nat).testBit 3 } ∧
    (Apds9306.is_power_on_status (ε := Unit)
        { sampleDriver with bus := constBus [0x28] }).1 =
      Except.ok ((0x28 : Nat).testBit 5) ∧
    (Apds9306.is_interrupt (ε := Unit)
        { sampleDriver with bus := constBus [0x28] }).1 =
      Except.ok ((0x28 : Nat).testBit 4) ∧
    (Apds9306.is_data_ready (ε := Unit)
        { sampleDriver with bus := constBus [0x28] }).1 =
      Except.ok ((0x28 : Nat).testBit 3) :=
  get_status_decodes_bits Unit sampleDriver 0x28 (by norm_num)

/-- Claim C10: `reset` issues exactly one write of the byte 0x10 (only
the software-reset bit set) to MAIN_CTRL without reading the register
first, so the whole register — including the enable bit — is overwritten
with 0x10 regardless of its previous contents, and the cached sensing
and interrupt configurations are left unchanged. -/
theorem reset_blind_single_write (ε : Type) (d : Apds9306 ε) (init : Nat → Nat) :
    Apds9306.reset (ε := ε) { d with bus := okBus } =
      (Except.ok (),
       { bus :=
          { behavior := fun _ _ => BusResp.ok [],
            history := [(BusReq.write I2C_ADDR [0x00, 0x10], BusResp.ok [])] },
         config := d.config, interrupt_config := d.interrupt_config }) ∧
    (Apds9306.reset (ε := ε) { d with bus := simBus init }).2.bus.history =
      [(BusReq.write I2C_ADDR [0x00, 0x10], BusResp.ok [])] ∧
    applyWrites init
        (Apds9306.reset (ε := ε) { d with bus := simBus init }).2.bus.history
        0x00 = 0x10 ∧
    (Apds9306.reset (ε := ε) { d with bus := simBus init }).2.config = d.config ∧
    (Apds9306.reset (ε := ε) { d with bus := simBus init }).2.interrupt_config =
      d.interrupt_config :=
  ⟨rfl, rfl, rfl, rfl, rfl⟩
